import Mathlib

/-
Verification development for the Iris Essentials Shopify chatbot server.
The embedded code is the chat response orchestration engine of the Express
server: the POST /api/chat handler, the callLLM helper with its three
provider branches, the regex intent chain, and the catalog-backed product
listing.  External effects (catalog HTTP calls, the LLM HTTP transport)
are modelled as explicit inputs; each outbound call is counted in a trace.
-/

/-! ## String machinery

The intent vocabularies in the source are case-insensitive regexes that are
plain alternations of literal words, so a regex test is: some word of the
vocabulary occurs as a case-insensitive substring of the message.
-/

/-- Is the first list a leading segment of the second (char-by-char)? -/
def startsWithL : List Char → List Char → Bool
  | [], _ => true
  | _ :: _, [] => false
  | a :: as, b :: bs => a == b && startsWithL as bs

/-- Does the needle occur as a contiguous segment of the haystack? -/
def hasSubL (needle : List Char) (hay : List Char) : Bool :=
  match hay with
  | [] => startsWithL needle []
  | c :: rest => startsWithL needle (c :: rest) || hasSubL needle rest

/-- Substring test on strings. -/
def strHasSub (hay pat : String) : Bool :=
  hasSubL pat.data hay.data

/-- Case-insensitive substring test, the meaning of a /word/i regex test
    (lowercasing both sides character by character). -/
def ciHasSub (hay pat : String) : Bool :=
  hasSubL (pat.data.map Char.toLower) (hay.data.map Char.toLower)

/-- A case-insensitive alternation regex test: /w1|w2|.../i.test(m). -/
def reTest (words : List String) (m : String) : Bool :=
  words.any (fun w => ciHasSub m w)

/-! ## A small JSON model

Response bodies and provider payloads are JSON values.  Optional chaining
(a?.b) in the source is modelled by Option-valued field access.
-/

inductive Json where
  | null : Json
  | bool : Bool → Json
  | num : Rat → Json
  | str : String → Json
  | arr : List Json → Json
  | obj : List (String × Json) → Json

/-- JavaScript truthiness of a JSON value. -/
def Json.truthy : Json → Bool
  | .null => false
  | .bool b => b
  | .num q => q != 0
  | .str s => s != ""
  | .arr _ => true
  | .obj _ => true

/-- Property access a?.k : undefined unless an object with the key. -/
def Json.getField : Json → String → Option Json
  | .obj fields, k => (fields.find? (fun f => f.1 == k)).map (fun f => f.2)
  | _, _ => none

/-- Index access a?.[i] : undefined unless an array long enough. -/
def Json.idx : Json → Nat → Option Json
  | .arr es, i => es.get? i
  | _, _ => none

/-- JavaScript (a || d) for an optional string a: d when a is absent or empty. -/
def jsOrStr : Option String → String → String
  | some s, d => if s = "" then d else s
  | none, d => d

/-- Truthiness of an optional string environment variable. -/
def jsTruthyS : Option String → Bool
  | some s => s != ""
  | none => false

/-! ## Number parsing and formatting

parseFloat and Number.prototype.toFixed(2) from the price formatting code
(lines 490 to 509 of the source).  parseFloat is modelled on decimal
literals with optional sign, fraction and exponent; the special values
Infinity and hex forms never arise for catalog price strings.
-/

/-- Numeric value of a digit list, most significant first. -/
def natOfDigits (ds : List Char) : Nat :=
  ds.foldl (fun n c => n * 10 + (c.toNat - 48)) 0

/-- Exponent suffix of a float literal; an empty digit run contributes 0. -/
def parseExp (t : List Char) : Int :=
  let sgnRest : Int × List Char :=
    match t with
    | '-' :: r => (-1, r)
    | '+' :: r => (1, r)
    | _ => (1, t)
  let eds := sgnRest.2.takeWhile Char.isDigit
  if eds.isEmpty then 0 else sgnRest.1 * (natOfDigits eds : Int)

/-- JavaScript parseFloat on a decimal literal; none models NaN.  The value
    sign * (intPart.fracPart) * 10 ^ exponent is assembled as one exact
    rational via mkRat. -/
def parseFloat (s : String) : Option Rat :=
  let cs := s.data.dropWhile (fun c => c == ' ' || c == '\t' || c == '\n' || c == '\r')
  let sgnRest : Int × List Char :=
    match cs with
    | '-' :: t => (-1, t)
    | '+' :: t => (1, t)
    | _ => (1, cs)
  let cs1 := sgnRest.2
  let intPart := cs1.takeWhile Char.isDigit
  let rest1 := cs1.dropWhile Char.isDigit
  let fracPart :=
    match rest1 with
    | '.' :: t => t.takeWhile Char.isDigit
    | _ => []
  let rest2 :=
    match rest1 with
    | '.' :: t => t.dropWhile Char.isDigit
    | _ => rest1
  if intPart.isEmpty && fracPart.isEmpty then none
  else
    let expVal : Int :=
      match rest2 with
      | 'e' :: t => parseExp t
      | 'E' :: t => parseExp t
      | _ => 0
    let num0 : Nat := natOfDigits (intPart ++ fracPart)
    let den0 : Nat := 10 ^ fracPart.length
    let numDen : Nat × Nat :=
      if 0 ≤ expVal then (num0 * 10 ^ expVal.toNat, den0)
      else (num0, den0 * 10 ^ (-expVal).toNat)
    some (mkRat (sgnRest.1 * (numDen.1 : Int)) numDen.2)

/-- Two-digit zero-padded rendering of a number below 100. -/
def pad2 (n : Nat) : String :=
  if n < 10 then "0" ++ toString n else toString n

/-- Number.prototype.toFixed(2): nearest hundredth, ties toward the larger
    value; only positive prices reach this in the source.  The scaled value
    floor(q * 100 + 1 / 2) is computed exactly on the reduced fraction as
    fdiv (200 * num + den) (2 * den). -/
def toFixed2 (q : Rat) : String :=
  let scaled : Int := Int.fdiv (200 * q.num + (q.den : Int)) (2 * (q.den : Int))
  if scaled < 0 then
    "-" ++ toString ((-scaled).toNat / 100) ++ "." ++ pad2 ((-scaled).toNat % 100)
  else
    toString (scaled.toNat / 100) ++ "." ++ pad2 (scaled.toNat % 100)

/-! ## HTML tag stripping

body_html.replace with the global pattern: open angle bracket, a run of
characters other than a close angle bracket, then a close angle bracket.
A match exists at an open bracket exactly when some close bracket follows.
-/

/-- One global-replace pass deleting every complete angle-bracket tag.
    Structural recursion on a fuel argument; each step consumes at least
    one character, so fuel equal to the input length always suffices and
    the fuel-exhausted branch is never reached from stripHtml. -/
def stripHtmlGo : Nat → List Char → List Char
  | 0, _ => []
  | _ + 1, [] => []
  | fuel + 1, c :: rest =>
    if c == '<' && rest.contains '>' then
      stripHtmlGo fuel ((rest.dropWhile (fun d => !(d == '>'))).tail)
    else
      c :: stripHtmlGo fuel rest

/-- String form of the tag-stripping replace. -/
def stripHtml (s : String) : String :=
  String.mk (stripHtmlGo s.data.length s.data)

/-- Does the char list contain an open angle bracket with a close angle
    bracket somewhere after it (the shape of a complete tag)? -/
def hasOpenClose : List Char → Bool
  | [] => false
  | c :: r => (c == '<' && r.contains '>') || hasOpenClose r

/-! ## Data model

Catalog records as consumed by the handler, the process environment
variables read by the LLM code, the catalog gateway as explicit call
results, and HTTP responses with an outbound-call trace.
-/

structure Variant where
  price : Option String

structure Product where
  title : String
  variants : List Variant
  body_html : Option String
  price : Option String

structure Collection where
  id : Nat
  title : String

structure Env where
  LLM_API_KEY : Option String
  LLM_PROVIDER : Option String
  LLM_MODEL : Option String

/-- A thrown upstream error: apiErr carries a response with a status and a
    message payload (error.response present); plain has no response and is
    handled by the global error handler. -/
inductive JsError where
  | apiErr : Nat → Json → JsError
  | plain : String → JsError

/-- The catalog gateway, as the results the four client.get call sites
    would observe on this request: the products fetch with limit 10 for
    LLM context (line 343), the custom_collections fetch (line 435), the
    per-collection products fetch with limit 5 (line 467), and the general
    products fetch with limit 5 (line 474).  An ok none payload models a
    response body missing the expected field. -/
structure Gateway where
  productsLimit10 : Except JsError (Option (List Product))
  customCollections : Except JsError (Option (List Collection))
  collectionProducts : Nat → Except JsError (Option (List Product))
  productsLimit5 : Except JsError (Option (List Product))

structure HttpRes where
  status : Nat
  body : Json

structure Trace where
  llmCalls : Nat
  catalogCalls : Nat

/-! ## Intent vocabularies (source lines 334 and 368 to 378, 419 and 420) -/

def isProductQuery (m : String) : Bool :=
  reTest ["product", "item", "merchandise", "goods", "buy", "purchase", "order"] m

def isSpecificProductQuery (m : String) : Bool :=
  reTest ["7-in-1 LED", "LED Light Therapy", "Light Therapy Device", "Youthful Skin"] m

def isGoldEyeMaskQuery (m : String) : Bool :=
  reTest ["24K Gold Eye Mask", "Gold Eye Mask", "Eye Mask", "Puffiness", "Wrinkle Relief"] m

def isRewardsQuery (m : String) : Bool :=
  reTest ["reward", "loyalty", "points", "program", "earn", "redeem"] m

def isFaqQuery (m : String) : Bool :=
  reTest ["faq", "question", "frequently asked"] m

def isRefundQuery (m : String) : Bool :=
  reTest ["refund", "return", "exchange", "money back"] m

def isShippingQuery (m : String) : Bool :=
  reTest ["shipping", "delivery", "postage", "send", "track"] m

def isPrivacyQuery (m : String) : Bool :=
  reTest ["privacy", "data", "information", "collect", "cookie"] m

def isTermsQuery (m : String) : Bool :=
  reTest ["terms", "conditions", "service", "legal"] m

def isContactQuery (m : String) : Bool :=
  reTest ["contact", "support", "help", "email", "phone", "call"] m

def isSocialMediaQuery (m : String) : Bool :=
  reTest ["social", "media", "facebook", "instagram", "twitter", "tiktok", "follow"] m

def beautyCollectionQuery (m : String) : Bool :=
  reTest ["beauty", "beauty essentials", "skincare", "makeup", "cosmetic"] m

def kitchenCollectionQuery (m : String) : Bool :=
  reTest ["kitchen", "cooking", "culinary", "baking"] m

/-! ## Intent classification

The fallback branch chain of the handler (lines 380 to 524) evaluates the
flags in this fixed order with the first match winning; the gold eye mask
flag is computed at line 370 but appears in no branch.
-/

inductive Intent where
  | faq | refund | shipping | privacy | terms | contact | social | rewards
  | specificProduct | genericProduct | other
deriving DecidableEq

def classify (m : String) : Intent :=
  if isFaqQuery m then .faq
  else if isRefundQuery m then .refund
  else if isShippingQuery m then .shipping
  else if isPrivacyQuery m then .privacy
  else if isTermsQuery m then .terms
  else if isContactQuery m then .contact
  else if isSocialMediaQuery m then .social
  else if isRewardsQuery m then .rewards
  else if isSpecificProductQuery m then .specificProduct
  else if isProductQuery m then .genericProduct
  else .other

/-- The priority order the spec states for the fallback intent chain. -/
def intentPriority : List (Intent × (String → Bool)) :=
  [(.faq, isFaqQuery), (.refund, isRefundQuery), (.shipping, isShippingQuery),
   (.privacy, isPrivacyQuery), (.terms, isTermsQuery), (.contact, isContactQuery),
   (.social, isSocialMediaQuery), (.rewards, isRewardsQuery),
   (.specificProduct, isSpecificProductQuery), (.genericProduct, isProductQuery)]

/-! ## Canned reply texts (source lines 380 to 416 and 521 to 524) -/

def faqReply : String :=
  "You can find answers to frequently asked questions on our FAQ page: https://irisessentials.com/pages/faqs\n\nSome common questions include:\n\u2022 How do I track my order?\n\u2022 What payment methods do you accept?\n\u2022 Are your products cruelty-free?\n\u2022 How can I join the rewards program?\n\nIs there something specific you\x27d like to know?"

def refundReply : String :=
  "Our refund policy includes:\n\n\u2022 30-day return window from delivery date\n\u2022 Items must be unused, unworn, and in original packaging\n\u2022 Original receipt or proof of purchase required\n\u2022 Refunds processed to original payment method within 5-7 business days\n\u2022 Return shipping costs are the customer\x27s responsibility\n\u2022 Sale items can only be exchanged for store credit\n\nFor more details: https://irisessentials.com/policies/refund-policy"

def shippingReply : String :=
  "Our shipping policy details:\n\n\u2022 Standard UK Delivery (3-5 business days): FREE on orders over \xa350, otherwise \xa33.99\n\u2022 Express UK Delivery (1-2 business days): \xa36.99\n\u2022 International shipping available to EU, US, Canada, and Australia\n\u2022 International delivery takes 7-14 business days\n\u2022 All orders receive tracking information via email\n\u2022 We\x27re not responsible for customs fees on international orders\n\u2022 Free returns within the UK within 30 days\n\nMore info: https://irisessentials.com/policies/shipping-policy"

def privacyReply : String :=
  "Our privacy policy key points:\n\n\u2022 We collect personal information (name, email, address) only for processing orders\n\u2022 Payment information is securely processed through Shopify Payments\n\u2022 We use cookies to enhance browsing experience and analyze site traffic\n\u2022 We never sell your personal information to third parties\n\u2022 Marketing emails include an unsubscribe option\n\u2022 You can request access to your personal data or deletion at any time\n\u2022 We use industry-standard security measures to protect your data\n\nFull policy: https://irisessentials.com/policies/privacy-policy"

def termsReply : String :=
  "Our Terms of Service highlights:\n\n\u2022 You must be at least 18 years old to make a purchase\n\u2022 Creating an account requires accurate and complete information\n\u2022 Product images are representative, slight variations may occur\n\u2022 We reserve the right to refuse service to anyone\n\u2022 Prices are subject to change without notice\n\u2022 We are not liable for delivery delays due to shipping carriers\n\u2022 Intellectual property (images, logos, content) belongs to Iris Essentials\n\u2022 User-generated content may be used for marketing with permission\n\nComplete terms: https://irisessentials.com/policies/terms-of-service"

def contactReply : String :=
  "You can contact our customer support team through:\n\u2022 Email: contact@irisessentials.com\n\u2022 Phone: +447463084372 (Mon-Fri, 9am-5pm GMT)\n\u2022 Contact form: https://irisessentials.com/pages/contact\n\nWe aim to respond to all inquiries within 24 hours."

def socialReply : String :=
  "Follow us on social media to stay updated with our latest products and promotions:\n\u2022 Instagram: @iris_essentials\n\u2022 Facebook: @IrisEssentialsOfficial\n\u2022 TikTok: @iris_essentials\n\u2022 Pinterest: @irisessentials\n\nWe love seeing our products in action! Tag us using #IrisEssentials"

def rewardsReply : String :=
  "Our Iris Rewards program lets you earn points with every purchase! Here\x27s how it works:\n\n\u2022 Earn 1 point for every \xa31 spent\n\u2022 500 points = \xa35 reward\n\u2022 1000 points = \xa310 reward\n\u2022 2000 points = \xa320 reward\n\nYou can also earn points by:\n\u2022 Creating an account: 100 points\n\u2022 Following us on Instagram: 50 points\n\u2022 Celebrating your birthday: 100 points\n\u2022 Referring a friend: 200 points\n\nLearn more at: https://irisessentials.com/pages/rewards-program"

def specificProductReply : String :=
  "**7-in-1 LED Light Therapy Device for Youthful Skin Care**\n\nPrice: \xa389.99\n\nThis advanced skincare device uses 7 different LED light wavelengths to target various skin concerns:\n\n\u2022 Red light: Stimulates collagen production\n\u2022 Blue light: Treats acne and prevents breakouts\n\u2022 Green light: Reduces pigmentation and evens skin tone\n\u2022 Yellow light: Reduces redness and inflammation\n\u2022 Purple light: Detoxifies skin and improves lymphatic flow\n\u2022 Cyan light: Soothes sensitive skin\n\u2022 White light: Penetrates deeply for overall rejuvenation\n\nThe device is rechargeable, FDA-approved, and clinically tested. Use for just 10 minutes daily to see visible results within 4-6 weeks.\n\nWould you like to know more about this product or other skincare devices we offer?"

def defaultReply : String :=
  "I\x27m here to help you with information about our products, rewards program, shipping, returns, and more. What would you like to know? I can provide details about our policies, not just links."

def noScopedProductsReply (collectionName : String) : String :=
  "I couldn\x27t find any products in the " ++ collectionName ++ " collection. Please check back later."

def noProductsReply : String :=
  "I couldn\x27t find any products in the store. Please check back later."

/-! ## Price formatting and the fallback product listing (lines 489 to 518) -/

/-- The predicate of the variant search at line 497: v.price truthy and
    parseFloat(v.price) strictly positive (NaN compares false). -/
def variantGoodPrice (v : Variant) : Bool :=
  match v.price with
  | some s =>
    s != "" &&
      (match parseFloat s with
       | some q => decide (0 < q)
       | none => false)
  | none => false

/-- Is the top-level product price truthy and strictly positive (line 507)? -/
def topGoodPrice (p : Product) : Bool :=
  match p.price with
  | some s =>
    s != "" &&
      (match parseFloat s with
       | some q => decide (0 < q)
       | none => false)
  | none => false

/-- The three-tier price extraction of lines 491 to 509. -/
def productPriceString (p : Product) : String :=
  let price1 :=
    if p.variants.length > 0 then
      match p.variants.find? variantGoodPrice with
      | some v => "\xa3" ++ toFixed2 ((parseFloat (v.price.getD "")).getD 0)
      | none => "Price not available"
    else "Price not available"
  if price1 = "Price not available" then
    if topGoodPrice p then
      "\xa3" ++ toFixed2 ((parseFloat (p.price.getD "")).getD 0)
    else price1
  else price1

/-- Array.prototype.join with a newline separator. -/
def joinNL : List String → String
  | [] => ""
  | [s] => s
  | s :: t :: rest => s ++ "\n" ++ joinNL (t :: rest)

/-- One line of the product listing (line 511). -/
def productLine (p : Product) : String :=
  "• " ++ p.title ++ ": " ++ productPriceString p

/-- The productList string of lines 490 to 512. -/
def productListStr (ps : List Product) : String :=
  joinNL (ps.map productLine)

/-- Listing reply scoped to a named collection (line 516). -/
def scopedListReply (collectionName : String) (ps : List Product) : String :=
  "Here are some products from our " ++ collectionName ++ " collection:\n\n" ++
    productListStr ps ++ "\n\nWould you like more information about any of these products?"

/-- General store listing reply (line 517). -/
def generalListReply (ps : List Product) : String :=
  "Here are some products from our store:\n\n" ++ productListStr ps ++
    "\n\nWould you like more information about any of these products?"

/-! ## LLM context building (lines 322 to 356) -/

structure CtxProduct where
  title : String
  price : String
  description : String

structure ChatContext where
  shopName : String
  website : String
  shippingPolicy : String
  returnsPolicy : String
  rewardsPolicy : String
  products : Option (List CtxProduct)

/-- The per-product context record of lines 348 to 352: raw first-variant
    price (or the availability marker) and tag-stripped description. -/
def ctxProduct (p : Product) : CtxProduct :=
  { title := p.title
  , price := jsOrStr (p.variants.head?.bind Variant.price) "Price not available"
  , description := jsOrStr (p.body_html.map stripHtml) "No description" }

/-- The fixed part of the ConversationContext (lines 323 to 331). -/
def baseContext : ChatContext :=
  { shopName := "Iris Essentials"
  , website := "https://irisessentials.com"
  , shippingPolicy := "Standard UK Delivery (3-5 business days): FREE on orders over \xa350, otherwise \xa33.99. Express UK Delivery (1-2 business days): \xa36.99."
  , returnsPolicy := "30-day return window from delivery date. Items must be unused and in original packaging."
  , rewardsPolicy := "Earn 1 point for every \xa31 spent. 500 points = \xa35 reward."
  , products := none }

/-- Context construction: the catalog snapshot is fetched only when the
    message matches the product vocabulary (line 334); a fetch failure or a
    missing products field is swallowed by the catch at lines 353 to 355 and
    the snapshot is simply omitted.  The second component counts the catalog
    calls made. -/
def buildLLMContext (gw : Gateway) (msg : String) : ChatContext × Nat :=
  if isProductQuery msg then
    match gw.productsLimit10 with
    | .ok (some ps) => ({ baseContext with products := some (ps.map ctxProduct) }, 1)
    | .ok none => (baseContext, 1)
    | .error _ => (baseContext, 1)
  else (baseContext, 0)

/-! ## callLLM (source lines 134 to 286)

The HTTP transaction is modelled by an explicit transport outcome: an
error (transport failure or a non-2xx response, both of which axios throws
and the catch block at lines 263 to 282 converts to null) or a response
data payload.  Request construction is modelled for the parts the spec
constrains: method, url and headers.  The second component of the result
counts network calls made.
-/

structure RequestCfg where
  method : String
  url : String
  headers : List (String × String)

/-- OpenAI request shape (lines 156 to 174). -/
def openaiRequest (apiKey : String) : RequestCfg :=
  { method := "post"
  , url := "https://api.openai.com/v1/chat/completions"
  , headers := [("Authorization", "Bearer " ++ apiKey), ("Content-Type", "application/json")] }

/-- Anthropic request shape (lines 176 to 197). -/
def anthropicRequest (apiKey : String) : RequestCfg :=
  { method := "post"
  , url := "https://api.anthropic.com/v1/messages"
  , headers := [("x-api-key", apiKey), ("Content-Type", "application/json"),
                ("anthropic-version", "2023-06-01")] }

/-- Gemini request shape (lines 200 to 237): the model identifier defaults
    to gemini-pro; exactly that identifier selects the v1 endpoint with the
    key in a header, any other identifier selects the v1beta endpoint with
    the key as a url query parameter. -/
def geminiRequest (model : Option String) (apiKey : String) : RequestCfg :=
  let modelIdentifier := jsOrStr model "gemini-pro"
  if modelIdentifier = "gemini-pro" then
    { method := "post"
    , url := "https://generativelanguage.googleapis.com/v1/models/" ++ modelIdentifier ++
        ":generateContent"
    , headers := [("Content-Type", "application/json"), ("x-goog-api-key", apiKey)] }
  else
    { method := "post"
    , url := "https://generativelanguage.googleapis.com/v1beta/models/" ++ modelIdentifier ++
        ":generateContent?key=" ++ apiKey
    , headers := [("Content-Type", "application/json")] }

/-- Header lookup in a request. -/
def lookupHeader (r : RequestCfg) (k : String) : Option String :=
  (r.headers.find? (fun h => h.1 == k)).map (fun h => h.2)

/-- response.data?.choices?.[0]?.message?.content (line 251). -/
def extractOpenAI (data : Json) : Option Json :=
  (((data.getField "choices").bind (fun j => j.idx 0)).bind
    (fun j => j.getField "message")).bind (fun j => j.getField "content")

/-- response.data?.content?.[0]?.text (line 254). -/
def extractAnthropic (data : Json) : Option Json :=
  ((data.getField "content").bind (fun j => j.idx 0)).bind (fun j => j.getField "text")

/-- candidates?.[0]?.content?.parts?.[0]?.text (lines 257 to 260). -/
def extractGemini (data : Json) : Option Json :=
  (((((data.getField "candidates").bind (fun j => j.idx 0)).bind
    (fun j => j.getField "content")).bind (fun j => j.getField "parts")).bind
    (fun j => j.idx 0)).bind (fun j => j.getField "text")

/-- The lowercased configured provider name (line 142). -/
def provOf (env : Env) : String :=
  String.mk ((env.LLM_PROVIDER.getD "").data.map Char.toLower)

/-- callLLM: returns the extracted reply (none models both null and
    undefined) and the number of network calls made.  Unset or empty key or
    provider short-circuits (lines 136 to 139); an unsupported provider
    returns null with no call (lines 240 to 243); a transport error is
    caught and becomes null (lines 263 to 282); otherwise the provider
    extraction runs on the response data (lines 248 to 261), with the
    defensive trailing null of line 285 for completeness. -/
def callLLM (env : Env) (transport : Except Unit Json) : Option Json × Nat :=
  if !(jsTruthyS env.LLM_API_KEY && jsTruthyS env.LLM_PROVIDER) then (none, 0)
  else if provOf env = "openai" || provOf env = "anthropic" || provOf env = "gemini" then
    match transport with
    | .error _ => (none, 1)
    | .ok data =>
      if provOf env = "openai" then (extractOpenAI data, 1)
      else if provOf env = "anthropic" then (extractAnthropic data, 1)
      else if provOf env = "gemini" then (extractGemini data, 1)
      else (none, 1)
  else (none, 0)

/-! ## The chat endpoint (source lines 306 to 540) -/

/-- The outer catch of lines 526 to 539 together with the global error
    handler of lines 53 to 61: an error carrying a response is answered
    with the upstream status (500 when that status is falsy) and a
    ShopifyAPIError body; any other error reaches the global handler as a
    plain 500. -/
def outerCatch : JsError → HttpRes
  | .apiErr status msg =>
    { status := if status = 0 then 500 else status
    , body := Json.obj [("error", Json.obj
        [("message", msg), ("status", Json.num status), ("type", Json.str "ShopifyAPIError")])] }
  | .plain msg =>
    { status := 500
    , body := Json.obj [("error", Json.obj
        [("message", Json.str (if msg = "" then "Internal Server Error" else msg)),
         ("status", Json.num 500)])] }

/-- A 200 response carrying a reply string. -/
def okReply (r : String) : HttpRes :=
  { status := 200, body := Json.obj [("reply", Json.str r)] }

/-- Collection resolution of lines 441 to 457: the beauty branch is tried
    first; the matched collection keeps its id and title. -/
def matchedCollection (m : String) (collections : List Collection) : Option Collection :=
  if beautyCollectionQuery m then
    collections.find? (fun c => reTest ["beauty", "beauty essentials"] c.title)
  else if kitchenCollectionQuery m then
    collections.find? (fun c => reTest ["kitchen", "kitchen essentials"] c.title)
  else none

/-- Scoped product fetch and reply (lines 465 to 518 with collectionId set).
    The argument calls is the number of catalog calls already made in this
    branch. -/
def fetchScoped (gw : Gateway) (c : Collection) (calls : Nat) : HttpRes × Nat :=
  match gw.collectionProducts c.id with
  | .error e => (outerCatch e, calls + 1)
  | .ok body =>
    let products := body.getD []
    if products.length = 0 then
      (okReply (noScopedProductsReply c.title), calls + 1)
    else
      (okReply (scopedListReply c.title products), calls + 1)

/-- General product fetch and reply (lines 472 to 518 with collectionId
    null). -/
def fetchGeneral (gw : Gateway) (calls : Nat) : HttpRes × Nat :=
  match gw.productsLimit5 with
  | .error e => (outerCatch e, calls + 1)
  | .ok body =>
    let products := body.getD []
    if products.length = 0 then
      (okReply noProductsReply, calls + 1)
    else
      (okReply (generalListReply products), calls + 1)

/-- The isProductQuery branch of lines 417 to 518.  A collections fetch
    happens only when the message names a beauty or kitchen collection;
    its failure, like every catalog failure on this path, propagates to the
    outer catch. -/
def productBranch (gw : Gateway) (m : String) : HttpRes × Nat :=
  if beautyCollectionQuery m || kitchenCollectionQuery m then
    match gw.customCollections with
    | .error e => (outerCatch e, 1)
    | .ok body =>
      match matchedCollection m (body.getD []) with
      | some c => fetchScoped gw c 1
      | none => fetchGeneral gw 1
  else fetchGeneral gw 0

/-- The rule-based fallback: the branch chain of lines 380 to 524, keyed by
    the classification of the message.  The second component counts catalog
    calls. -/
def fallbackRespond (gw : Gateway) (m : String) : HttpRes × Nat :=
  match classify m with
  | .faq => (okReply faqReply, 0)
  | .refund => (okReply refundReply, 0)
  | .shipping => (okReply shippingReply, 0)
  | .privacy => (okReply privacyReply, 0)
  | .terms => (okReply termsReply, 0)
  | .contact => (okReply contactReply, 0)
  | .social => (okReply socialReply, 0)
  | .rewards => (okReply rewardsReply, 0)
  | .specificProduct => (okReply specificProductReply, 0)
  | .genericProduct => productBranch gw m
  | .other => (okReply defaultReply, 0)

/-- The POST /api/chat handler (lines 306 to 540).  A falsy message (absent
    or empty) is rejected at line 314 with a 400 whose error field is the
    plain string of line 315.  When both LLM variables are truthy the
    context is built, callLLM is invoked once, and a truthy reply is
    returned as is; otherwise the rule-based fallback runs. -/
def chatHandler (env : Env) (gw : Gateway) (transport : Except Unit Json)
    (message : Option String) : HttpRes × Trace :=
  let bad : HttpRes × Trace :=
    ({ status := 400, body := Json.obj [("error", Json.str "Message is required")] },
     { llmCalls := 0, catalogCalls := 0 })
  match message with
  | none => bad
  | some msg =>
    if msg = "" then bad
    else if jsTruthyS env.LLM_API_KEY && jsTruthyS env.LLM_PROVIDER then
      let ctxr := buildLLMContext gw msg
      let llmr := callLLM env transport
      match llmr.1 with
      | some j =>
        if j.truthy then
          ({ status := 200, body := Json.obj [("reply", j)] },
           { llmCalls := llmr.2, catalogCalls := ctxr.2 })
        else
          let fb := fallbackRespond gw msg
          (fb.1, { llmCalls := llmr.2, catalogCalls := ctxr.2 + fb.2 })
      | none =>
        let fb := fallbackRespond gw msg
        (fb.1, { llmCalls := llmr.2, catalogCalls := ctxr.2 + fb.2 })
    else
      let fb := fallbackRespond gw msg
      (fb.1, { llmCalls := 0, catalogCalls := fb.2 })

/-! ## Concrete fixtures used by witnesses and counterexamples -/

def envNone : Env := { LLM_API_KEY := none, LLM_PROVIDER := none, LLM_MODEL := none }

def envLLM : Env := { LLM_API_KEY := some "key", LLM_PROVIDER := some "openai", LLM_MODEL := none }

def gwEmpty : Gateway :=
  { productsLimit10 := .ok none, customCollections := .ok none
  , collectionProducts := fun _ => .ok none, productsLimit5 := .ok none }

def prodPanA : Product :=
  { title := "Copper Pan", variants := [{ price := some "25.00" }]
  , body_html := some "<p>A pan</p>", price := none }

def prodPanB : Product :=
  { title := "Steel Whisk", variants := [{ price := some "9.99" }]
  , body_html := none, price := none }

def gwKitchen : Gateway :=
  { productsLimit10 := .ok (some [])
  , customCollections := .ok (some [{ id := 9, title := "Kitchen Essentials" }])
  , collectionProducts := fun i => if i = 9 then .ok (some [prodPanA, prodPanB]) else .ok (some [])
  , productsLimit5 := .ok (some []) }

def gwErr503 : Gateway :=
  { productsLimit10 := .ok none, customCollections := .ok none
  , collectionProducts := fun _ => .ok none
  , productsLimit5 := .error (.apiErr 503 (Json.str "Service Unavailable")) }

def gwCtxErr : Gateway :=
  { productsLimit10 := .error (.plain "boom"), customCollections := .ok none
  , collectionProducts := fun _ => .ok none, productsLimit5 := .ok none }

def transportOpenAIOk : Except Unit Json :=
  Except.ok (Json.obj [("choices", Json.arr
    [Json.obj [("message", Json.obj [("content", Json.str "Hi")])]])])

def prodRawPrice : Product :=
  { title := "LED Mask", variants := [{ price := some "12.5" }]
  , body_html := some "<b>Good</b>", price := none }

def gwRawPrice : Gateway :=
  { productsLimit10 := .ok (some [prodRawPrice]), customCollections := .ok none
  , collectionProducts := fun _ => .ok none, productsLimit5 := .ok none }

/-! ## Substring toolkit -/

theorem startsWithL_mono (p : List Char) : ∀ l t : List Char,
    startsWithL p l = true → startsWithL p (l ++ t) = true := by
  induction p with
  | nil => intro l t _; rfl
  | cons a as ih =>
    intro l t h
    cases l with
    | nil => exact absurd h (by simp [startsWithL])
    | cons b bs =>
      simp only [startsWithL, Bool.and_eq_true] at h ⊢
      exact ⟨h.1, ih bs t h.2⟩

theorem startsWithL_self (p : List Char) : ∀ t : List Char,
    startsWithL p (p ++ t) = true := by
  induction p with
  | nil => intro t; rfl
  | cons a as ih =>
    intro t
    simp only [List.cons_append, startsWithL, Bool.and_eq_true]
    exact ⟨by simp, ih t⟩

theorem startsWithL_split (p : List Char) : ∀ l : List Char,
    startsWithL p l = true → ∃ t, l = p ++ t := by
  induction p with
  | nil => intro l _; exact ⟨l, rfl⟩
  | cons a as ih =>
    intro l h
    cases l with
    | nil => exact absurd h (by simp [startsWithL])
    | cons b bs =>
      simp only [startsWithL, Bool.and_eq_true, beq_iff_eq] at h
      obtain ⟨t, ht⟩ := ih bs h.2
      exact ⟨t, by simp [h.1.symm, ht]⟩

theorem hasSubL_of_startsWithL (p l : List Char) (h : startsWithL p l = true) :
    hasSubL p l = true := by
  cases l with
  | nil => simpa [hasSubL] using h
  | cons c rest => simp [hasSubL, h]

theorem hasSubL_self_append (p t : List Char) : hasSubL p (p ++ t) = true :=
  hasSubL_of_startsWithL _ _ (startsWithL_self p t)

theorem hasSubL_append_right (p : List Char) : ∀ a b : List Char,
    hasSubL p b = true → hasSubL p (a ++ b) = true := by
  intro a
  induction a with
  | nil => intro b h; simpa using h
  | cons x xs ih =>
    intro b h
    simp only [List.cons_append, hasSubL, Bool.or_eq_true]
    exact Or.inr (ih b h)

theorem hasSubL_append_left (p : List Char) : ∀ a b : List Char,
    hasSubL p a = true → hasSubL p (a ++ b) = true := by
  intro a
  induction a with
  | nil =>
    intro b h
    simp only [hasSubL] at h
    cases p with
    | nil => cases b with
      | nil => simpa [hasSubL]
      | cons y ys => simp [hasSubL, startsWithL]
    | cons q qs => exact absurd h (by simp [startsWithL])
  | cons x xs ih =>
    intro b h
    simp only [hasSubL, Bool.or_eq_true] at h ⊢
    cases h with
    | inl hs => exact Or.inl (by simpa using startsWithL_mono p (x :: xs) b hs)
    | inr hs => exact Or.inr (ih b hs)

theorem hasSubL_trans (p b : List Char) : ∀ a : List Char,
    hasSubL b a = true → hasSubL p b = true → hasSubL p a = true := by
  intro a
  induction a with
  | nil =>
    intro hba hpb
    simp only [hasSubL] at hba
    obtain ⟨t, ht⟩ := startsWithL_split b [] hba
    have hb : b = [] := by
      cases b with
      | nil => rfl
      | cons q qs => simp at ht
    subst hb
    simpa [hasSubL] using hpb
  | cons x xs ih =>
    intro hba hpb
    simp only [hasSubL, Bool.or_eq_true] at hba
    cases hba with
    | inl hs =>
      obtain ⟨t, ht⟩ := startsWithL_split b (x :: xs) hs
      rw [ht]
      exact hasSubL_append_left p b t hpb
    | inr hs =>
      simp only [hasSubL, Bool.or_eq_true]
      exact Or.inr (ih hs hpb)

theorem strData_append (a b : String) : (a ++ b).data = a.data ++ b.data := rfl

theorem strHasSub_append_right (a b p : String) (h : strHasSub b p = true) :
    strHasSub (a ++ b) p = true := by
  simp only [strHasSub, strData_append]
  exact hasSubL_append_right _ _ _ h

theorem strHasSub_append_left (a b p : String) (h : strHasSub a p = true) :
    strHasSub (a ++ b) p = true := by
  simp only [strHasSub, strData_append]
  exact hasSubL_append_left _ _ _ h

theorem strHasSub_trans (a b p : String) (hba : strHasSub a b = true)
    (hpb : strHasSub b p = true) : strHasSub a p = true :=
  hasSubL_trans _ _ _ hba hpb

theorem strHasSub_self_append (p t : String) : strHasSub (p ++ t) p = true := by
  simp only [strHasSub, strData_append]
  exact hasSubL_self_append _ _

theorem startsWithL_refl (p : List Char) : startsWithL p p = true := by
  have h := startsWithL_self p []
  simpa using h

theorem strHasSub_refl (s : String) : strHasSub s s = true :=
  hasSubL_of_startsWithL _ _ (startsWithL_refl _)

theorem joinNL_contains (f : Product → String) : ∀ (l : List Product) (p : Product),
    p ∈ l → strHasSub (joinNL (l.map f)) (f p) = true := by
  intro l
  induction l with
  | nil => intro p hp; cases hp
  | cons a t ih =>
    intro p hp
    cases t with
    | nil =>
      rcases List.mem_singleton.mp hp with rfl
      simpa [joinNL] using strHasSub_refl (f p)
    | cons b t2 =>
      simp only [List.map, joinNL]
      rcases List.mem_cons.mp hp with rfl | hmem
      · exact strHasSub_append_left _ _ _
          (strHasSub_append_left _ _ _ (strHasSub_refl (f p)))
      · have hrec := ih p hmem
        simp only [List.map] at hrec
        exact strHasSub_append_right _ _ _ hrec

/-! ## Tag-strip invariants and call-count lemmas -/

theorem contains_cons_false {a c : Char} {rest : List Char}
    (h : (c :: rest).contains a = false) :
    (a == c) = false ∧ rest.contains a = false := by
  simp only [List.contains_cons, Bool.or_eq_false_iff] at h
  exact h

theorem stripHtmlGo_no_gt : ∀ (n : Nat) (cs : List Char), cs.contains '>' = false →
    (stripHtmlGo n cs).contains '>' = false := by
  intro n
  induction n with
  | zero => intro cs _; rfl
  | succ k ih =>
    intro cs h
    cases cs with
    | nil => rfl
    | cons c rest =>
      obtain ⟨h1, h2⟩ := contains_cons_false h
      rw [stripHtmlGo]
      simp only [h2, Bool.and_false, Bool.false_eq_true, if_false]
      simp only [List.contains_cons, h1, Bool.false_or]
      exact ih rest h2

theorem stripHtmlGo_no_openclose : ∀ (n : Nat) (cs : List Char),
    hasOpenClose (stripHtmlGo n cs) = false := by
  intro n
  induction n with
  | zero => intro cs; rfl
  | succ k ih =>
    intro cs
    cases cs with
    | nil => rfl
    | cons c rest =>
      rw [stripHtmlGo]
      cases hguard : (c == '<' && rest.contains '>') with
      | true =>
        simp only [if_true]
        exact ih _
      | false =>
        simp only [Bool.false_eq_true, if_false]
        simp only [hasOpenClose, ih rest, Bool.or_false]
        cases hc : (c == '<') with
        | false => simp
        | true =>
          have hg : rest.contains '>' = false := by
            cases hr : rest.contains '>' with
            | false => rfl
            | true => rw [hc, hr] at hguard; exact absurd hguard (by decide)
          rw [stripHtmlGo_no_gt k rest hg]
          simp

theorem callLLM_calls_le (env : Env) (t : Except Unit Json) : (callLLM env t).2 ≤ 1 := by
  unfold callLLM
  cases t <;> (repeat' split) <;> first | exact Nat.le_refl 1 | exact Nat.zero_le 1

theorem fetchScoped_calls (gw : Gateway) (c : Collection) (n : Nat) :
    (fetchScoped gw c n).2 = n + 1 := by
  unfold fetchScoped
  repeat' split <;> first | rfl | simp

theorem fetchGeneral_calls (gw : Gateway) (n : Nat) :
    (fetchGeneral gw n).2 = n + 1 := by
  unfold fetchGeneral
  repeat' split <;> first | rfl | simp

theorem productBranch_calls_le (gw : Gateway) (m : String) :
    (productBranch gw m).2 ≤ 2 := by
  unfold productBranch
  (repeat' split) <;>
    first
      | exact Nat.le_succ 1
      | (rw [fetchScoped_calls])
      | (rw [fetchGeneral_calls]; all_goals exact Nat.le_succ 1)

theorem fallbackRespond_calls_le (gw : Gateway) (m : String) :
    (fallbackRespond gw m).2 ≤ 2 := by
  unfold fallbackRespond
  split <;> first | simp | exact productBranch_calls_le _ _

theorem buildLLMContext_calls_le (gw : Gateway) (m : String) :
    (buildLLMContext gw m).2 ≤ 1 := by
  unfold buildLLMContext
  repeat' split <;> first | rfl | simp

/-- The pound-prefixed rendering never equals the availability marker. -/
theorem pound_ne_marker (x : String) : ¬("\xa3" ++ x = "Price not available") := by
  intro h
  have h2 : ('\xa3' :: x.data) = "Price not available".data := congrArg String.data h
  have h3 : "Price not available".data = 'P' :: "rice not available".data := rfl
  rw [h3] at h2
  exact absurd (List.cons_eq_cons.mp h2).1 (by decide)

/-- The collection-scoped empty reply names the collection and differs from
    the general empty-store reply, whatever the collection title. -/
theorem noScoped_ne_noProducts (name : String) :
    noScopedProductsReply name ≠ noProductsReply := by
  intro h
  have h1 : strHasSub (noScopedProductsReply name) " collection. Please check back later." = true := by
    unfold noScopedProductsReply
    exact strHasSub_append_right _ _ _ (strHasSub_refl _)
  rw [h] at h1
  have h2 : strHasSub noProductsReply " collection. Please check back later." = false := by decide
  rw [h2] at h1
  exact Bool.noConfusion h1


/-! ## Claim C1 -/

/-- Claim C1 counterexample: the claim says every whitespace-only message
    terminates with status 400, but the handler only rejects falsy messages,
    so a single-space message is processed normally and answered 200. -/
theorem c1_whitespace_counterexample :
    (chatHandler envNone gwEmpty (Except.error ()) (some " ")).1.status = 200 ∧
    (200 : Nat) ≠ 400 := by
  exact ⟨rfl, by decide⟩

/-- Claim C1 (amended): only an absent or empty message is rejected; the
    rejection is a 400 whose body is an error object whose error field is
    the plain string "Message is required" (not a message/status object),
    and no outbound call is made. -/
theorem c1_empty_message_rejected (env : Env) (gw : Gateway) (t : Except Unit Json)
    (m : Option String) (hm : m = none ∨ m = some "") :
    chatHandler env gw t m =
      ({ status := 400, body := Json.obj [("error", Json.str "Message is required")] },
       { llmCalls := 0, catalogCalls := 0 }) := by
  rcases hm with rfl | rfl <;> rfl

/-- Witness for C1 at the concrete empty message. -/
theorem c1_empty_message_rejected_witness :
    chatHandler envNone gwEmpty (Except.error ()) (some "") =
      ({ status := 400, body := Json.obj [("error", Json.str "Message is required")] },
       { llmCalls := 0, catalogCalls := 0 }) :=
  c1_empty_message_rejected envNone gwEmpty (Except.error ()) (some "") (Or.inr rfl)

/-! ## Claim C2 -/

/-- Claim C2 counterexample: a message matching the refund vocabulary and
    the generic-product vocabulary but also the FAQ vocabulary classifies
    as FAQ, not Refund, because FAQ has the highest priority. -/
theorem c2_faq_refund_counterexample :
    isRefundQuery "faq refund product" = true ∧
    isProductQuery "faq refund product" = true ∧
    classify "faq refund product" = Intent.faq ∧
    Intent.faq ≠ Intent.refund := by
  refine ⟨rfl, rfl, rfl, by decide⟩

/-- Claim C2 (amended): the fallback chain evaluates the vocabularies in the
    exact order FAQ, Refund, Shipping, Privacy, Terms, Contact, Social,
    Rewards, Specific-product, Generic-product, Default with first match
    winning; a message matching the refund vocabulary never classifies as
    Generic-product, and classifies as Refund whenever it also avoids the
    FAQ vocabulary (the only higher-priority intent). -/
theorem c2_intent_priority (m : String) :
    (classify m =
      match intentPriority.find? (fun e => e.2 m) with
      | some e => e.1
      | none => Intent.other) ∧
    (isRefundQuery m = true → classify m ≠ Intent.genericProduct) ∧
    (isRefundQuery m = true → isFaqQuery m = false → classify m = Intent.refund) := by
  refine ⟨?_, ?_, ?_⟩
  · unfold classify intentPriority
    cases h1 : isFaqQuery m with
    | true => simp [List.find?, h1]
    | false =>
      cases h2 : isRefundQuery m with
      | true => simp [List.find?, h1, h2]
      | false =>
        cases h3 : isShippingQuery m with
        | true => simp [List.find?, h1, h2, h3]
        | false =>
          cases h4 : isPrivacyQuery m with
          | true => simp [List.find?, h1, h2, h3, h4]
          | false =>
            cases h5 : isTermsQuery m with
            | true => simp [List.find?, h1, h2, h3, h4, h5]
            | false =>
              cases h6 : isContactQuery m with
              | true => simp [List.find?, h1, h2, h3, h4, h5, h6]
              | false =>
                cases h7 : isSocialMediaQuery m with
                | true => simp [List.find?, h1, h2, h3, h4, h5, h6, h7]
                | false =>
                  cases h8 : isRewardsQuery m with
                  | true => simp [List.find?, h1, h2, h3, h4, h5, h6, h7, h8]
                  | false =>
                    cases h9 : isSpecificProductQuery m with
                    | true => simp [List.find?, h1, h2, h3, h4, h5, h6, h7, h8, h9]
                    | false =>
                      cases h10 : isProductQuery m with
                      | true => simp [List.find?, h1, h2, h3, h4, h5, h6, h7, h8, h9, h10]
                      | false =>
                        simp [List.find?, h1, h2, h3, h4, h5, h6, h7, h8, h9, h10]
  · intro hr
    unfold classify
    cases h1 : isFaqQuery m with
    | true => simp [h1]
    | false => simp [h1, hr]
  · intro hr hf
    unfold classify
    simp [hf, hr]

/-- Witness for C2: a message matching refund and product vocabulary but
    not FAQ classifies as Refund. -/
theorem c2_intent_priority_witness :
    classify "refund my order" = Intent.refund :=
  (c2_intent_priority "refund my order").2.2 rfl rfl

/-! ## Claim C3 -/

/-- Claim C3 counterexample: with an LLM configured, a product message that
    also names the kitchen collection, and a failing LLM attempt, the
    request makes three catalog calls (context fetch, collections lookup,
    scoped product lookup), exceeding the claimed bound of two. -/
theorem c3_three_catalog_calls_counterexample :
    (chatHandler envLLM gwKitchen (Except.error ()) (some "show me kitchen products")).2.catalogCalls
      = 3 ∧ ¬((3 : Nat) ≤ 2) := by
  exact ⟨rfl, by decide⟩

/-- Claim C3 (amended): per request the core issues at most one LLM call
    and at most three catalog calls; when no LLM is configured it issues
    no LLM call and at most two catalog calls. -/
theorem c3_call_bounds (env : Env) (gw : Gateway) (t : Except Unit Json)
    (m : Option String) :
    (chatHandler env gw t m).2.llmCalls ≤ 1 ∧
    (chatHandler env gw t m).2.catalogCalls ≤ 3 ∧
    ((jsTruthyS env.LLM_API_KEY && jsTruthyS env.LLM_PROVIDER) = false →
      (chatHandler env gw t m).2.llmCalls = 0 ∧
      (chatHandler env gw t m).2.catalogCalls ≤ 2) := by
  have hllm := callLLM_calls_le env t
  cases m with
  | none =>
    exact ⟨Nat.zero_le 1, Nat.zero_le 3, fun _ => ⟨rfl, Nat.zero_le 2⟩⟩
  | some msg =>
    have hc := buildLLMContext_calls_le gw msg
    have hf := fallbackRespond_calls_le gw msg
    by_cases hempty : msg = ""
    · subst hempty
      exact ⟨Nat.zero_le 1, Nat.zero_le 3, fun _ => ⟨rfl, Nat.zero_le 2⟩⟩
    · unfold chatHandler
      dsimp only
      rw [if_neg hempty]
      cases hcfg : (jsTruthyS env.LLM_API_KEY && jsTruthyS env.LLM_PROVIDER) with
      | false =>
        exact ⟨Nat.zero_le 1,
          le_trans (show (fallbackRespond gw msg).2 ≤ 2 from hf) (by decide),
          fun _ => ⟨rfl, hf⟩⟩
      | true =>
        cases hres : (callLLM env t).1 with
        | some j =>
          dsimp only
          cases hj : j.truthy with
          | true =>
            refine ⟨hllm, le_trans hc (by decide), fun hcontra => absurd hcontra (by decide)⟩
          | false =>
            refine ⟨hllm, ?_, fun hcontra => absurd hcontra (by decide)⟩
            show (buildLLMContext gw msg).2 + (fallbackRespond gw msg).2 ≤ 3
            omega
        | none =>
          refine ⟨hllm, ?_, fun hcontra => absurd hcontra (by decide)⟩
          show (buildLLMContext gw msg).2 + (fallbackRespond gw msg).2 ≤ 3
          omega

/-- Witness for C3: an unconfigured engine handling a plain greeting makes
    no LLM call and at most two catalog calls. -/
theorem c3_call_bounds_witness :
    (chatHandler envNone gwEmpty (Except.error ()) (some "hello")).2.llmCalls = 0 ∧
    (chatHandler envNone gwEmpty (Except.error ()) (some "hello")).2.catalogCalls ≤ 2 :=
  (c3_call_bounds envNone gwEmpty (Except.error ()) (some "hello")).2.2 rfl

/-! ## Claim C4 -/

/-- Claim C4: callLLM is a total function (the embedding itself is the
    never-throws guarantee); it makes at most one network call; a transport
    error or non-2xx response (both the error transport outcome) yields
    absent; a missing field along the selected provider extraction path
    yields absent; and a configured but unrecognized provider yields absent
    immediately with zero network calls. -/
theorem c4_callLLM_contract (env : Env) (t : Except Unit Json) :
    ((callLLM env t).2 ≤ 1) ∧
    (∀ e, t = Except.error e → (callLLM env t).1 = none) ∧
    (∀ j, t = Except.ok j →
      ((provOf env = "openai" ∧ extractOpenAI j = none) ∨
       (provOf env = "anthropic" ∧ extractAnthropic j = none) ∨
       (provOf env = "gemini" ∧ extractGemini j = none)) →
      (callLLM env t).1 = none) ∧
    ((jsTruthyS env.LLM_API_KEY && jsTruthyS env.LLM_PROVIDER) = true →
      provOf env ≠ "openai" → provOf env ≠ "anthropic" → provOf env ≠ "gemini" →
      callLLM env t = (none, 0)) := by
  refine ⟨callLLM_calls_le env t, ?_, ?_, ?_⟩
  · intro e he
    subst he
    unfold callLLM
    (repeat' split) <;> first | rfl | simp_all
  · intro j hj hcase
    subst hj
    unfold callLLM
    cases hcfg : (jsTruthyS env.LLM_API_KEY && jsTruthyS env.LLM_PROVIDER) with
    | false => rfl
    | true =>
      rcases hcase with ⟨hp, hx⟩ | ⟨hp, hx⟩ | ⟨hp, hx⟩ <;> simp [hp, hx]
  · intro hcfg h1 h2 h3
    unfold callLLM
    simp [hcfg, h1, h2, h3]

/-- Witness for C4 at concrete inputs: an unrecognized provider makes no
    call, and a transport error with a recognized provider yields absent. -/
theorem c4_callLLM_contract_witness :
    callLLM { LLM_API_KEY := some "k", LLM_PROVIDER := some "mistral", LLM_MODEL := none }
        (Except.error ()) = (none, 0) ∧
    (callLLM envLLM (Except.error ())).1 = none := by
  constructor
  · exact (c4_callLLM_contract
      { LLM_API_KEY := some "k", LLM_PROVIDER := some "mistral", LLM_MODEL := none }
      (Except.error ())).2.2.2 rfl (by decide) (by decide) (by decide)
  · exact (c4_callLLM_contract envLLM (Except.error ())).2.1 () rfl

/-! ## Claim C5 -/

/-- Claim C5: for the gemini provider, the model identifier gemini-pro
    (including the default when none is configured) yields the v1 endpoint
    with the API key in the x-goog-api-key header and a URL that is a fixed
    constant without the key; any other identifier yields the v1beta
    endpoint with the key as a URL query parameter and no key header. -/
theorem c5_gemini_auth (model : Option String) (apiKey : String) :
    (jsOrStr model "gemini-pro" = "gemini-pro" →
      (geminiRequest model apiKey).url =
        "https://generativelanguage.googleapis.com/v1/models/gemini-pro:generateContent" ∧
      lookupHeader (geminiRequest model apiKey) "x-goog-api-key" = some apiKey) ∧
    (jsOrStr model "gemini-pro" ≠ "gemini-pro" →
      (geminiRequest model apiKey).url =
        "https://generativelanguage.googleapis.com/v1beta/models/" ++
          jsOrStr model "gemini-pro" ++ ":generateContent?key=" ++ apiKey ∧
      lookupHeader (geminiRequest model apiKey) "x-goog-api-key" = none) := by
  constructor
  · intro h
    unfold geminiRequest
    rw [if_pos h, h]
    exact ⟨rfl, rfl⟩
  · intro h
    unfold geminiRequest
    rw [if_neg h]
    exact ⟨rfl, rfl⟩

/-- Witness for C5 at the default model and at a newer model. -/
theorem c5_gemini_auth_witness :
    ((geminiRequest none "SECRET").url =
      "https://generativelanguage.googleapis.com/v1/models/gemini-pro:generateContent" ∧
     lookupHeader (geminiRequest none "SECRET") "x-goog-api-key" = some "SECRET") ∧
    ((geminiRequest (some "gemini-1.5-pro-latest") "SECRET").url =
      "https://generativelanguage.googleapis.com/v1beta/models/" ++
        jsOrStr (some "gemini-1.5-pro-latest") "gemini-pro" ++ ":generateContent?key=" ++ "SECRET" ∧
     lookupHeader (geminiRequest (some "gemini-1.5-pro-latest") "SECRET") "x-goog-api-key" = none) :=
  ⟨(c5_gemini_auth none "SECRET").1 rfl,
   (c5_gemini_auth (some "gemini-1.5-pro-latest") "SECRET").2 (by decide)⟩

/-! ## Claim C6 -/

/-- Claim C6: the fallback listing price follows the three-tier rule.  If
    some variant passes the positive-price test, the first such variant is
    rendered as a two-decimal pound string of its parsed price; otherwise,
    if the top-level product price passes the test, that value is rendered
    the same way; otherwise the literal marker is returned. -/
theorem c6_price_tiers (p : Product) :
    (∀ v s q, p.variants.find? variantGoodPrice = some v → v.price = some s →
      parseFloat s = some q → productPriceString p = "\xa3" ++ toFixed2 q) ∧
    (∀ s q, p.variants.find? variantGoodPrice = none → topGoodPrice p = true →
      p.price = some s → parseFloat s = some q →
      productPriceString p = "\xa3" ++ toFixed2 q) ∧
    (p.variants.find? variantGoodPrice = none → topGoodPrice p = false →
      productPriceString p = "Price not available") := by
  refine ⟨?_, ?_, ?_⟩
  · intro v s q hfind hs hq
    have hlen : p.variants.length > 0 := by
      cases hval : p.variants with
      | nil => rw [hval] at hfind; exact absurd hfind (by simp)
      | cons a l => simp [hval]
    unfold productPriceString
    dsimp only
    rw [if_pos hlen, hfind]
    dsimp only
    rw [hs]
    dsimp only [Option.getD]
    rw [hq]
    dsimp only [Option.getD]
    rw [if_neg (pound_ne_marker (toFixed2 q))]
  · intro s q hfind htop hs hq
    unfold productPriceString
    dsimp only
    by_cases hlen : p.variants.length > 0
    · rw [if_pos hlen, hfind, if_pos rfl, if_pos htop, hs]
      dsimp only [Option.getD]
      rw [hq]
    · rw [if_neg hlen, if_pos rfl, if_pos htop, hs]
      dsimp only [Option.getD]
      rw [hq]
  · intro hfind htop
    unfold productPriceString
    dsimp only
    by_cases hlen : p.variants.length > 0
    · rw [if_pos hlen, hfind, if_pos rfl, if_neg (by rw [htop]; exact Bool.false_ne_true)]
    · rw [if_neg hlen, if_pos rfl, if_neg (by rw [htop]; exact Bool.false_ne_true)]

/-- Witness for C6: a variant price of 12.5 renders as a two-decimal pound
    string, and a product with no variants and no top-level price renders
    the marker. -/
theorem c6_price_tiers_witness :
    productPriceString
        { title := "m", variants := [{ price := some "12.5" }]
        , body_html := none, price := none } = "\xa312.50" ∧
    productPriceString
        { title := "n", variants := [], body_html := none, price := none } =
      "Price not available" := by
  constructor
  · have h := (c6_price_tiers
      { title := "m", variants := [{ price := some "12.5" }]
      , body_html := none, price := none }).1
      { price := some "12.5" } "12.5" (mkRat 25 2) rfl rfl rfl
    rw [h]
    rfl
  · exact (c6_price_tiers
      { title := "n", variants := [], body_html := none, price := none }).2.2 rfl rfl

/-! ## Claim C7 -/

/-- Claim C7: when a generic-product message names a collection that the
    gateway resolves, the reply is built from that collection alone.  A
    non-empty scoped listing yields the scoped reply in which every product
    title appears prefixed by a bullet; an empty scoped listing yields the
    explanatory reply naming the collection, distinct from the general
    no-products reply; and the outcome is unchanged under any value of the
    general product listing, so no fallback to it occurs. -/
theorem c7_collection_scoped (m : String) (gw : Gateway) (cols : List Collection)
    (c : Collection)
    (hcls : classify m = Intent.genericProduct)
    (hcols : gw.customCollections = Except.ok (some cols))
    (hmatch : matchedCollection m cols = some c) :
    (∀ ps, gw.collectionProducts c.id = Except.ok (some ps) →
      (ps ≠ [] →
        (fallbackRespond gw m).1 = okReply (scopedListReply c.title ps) ∧
        (∀ p ∈ ps, strHasSub (scopedListReply c.title ps) ("• " ++ p.title) = true)) ∧
      (ps = [] →
        (fallbackRespond gw m).1 = okReply (noScopedProductsReply c.title) ∧
        noScopedProductsReply c.title ≠ noProductsReply)) ∧
    (∀ x, fallbackRespond { gw with productsLimit5 := x } m = fallbackRespond gw m) := by
  have hbk : (beautyCollectionQuery m || kitchenCollectionQuery m) = true := by
    cases hb : beautyCollectionQuery m with
    | true => rfl
    | false =>
      cases hk : kitchenCollectionQuery m with
      | true => rfl
      | false => simp [matchedCollection, hb, hk] at hmatch
  have hfb : fallbackRespond gw m = fetchScoped gw c 1 := by
    unfold fallbackRespond
    rw [hcls]
    dsimp only
    unfold productBranch
    rw [if_pos hbk, hcols]
    dsimp only [Option.getD]
    rw [hmatch]
  refine ⟨?_, ?_⟩
  · intro ps hps
    constructor
    · intro hne
      constructor
      · rw [hfb]
        unfold fetchScoped
        rw [hps]
        dsimp only [Option.getD]
        rw [if_neg (fun h => hne (List.length_eq_zero.mp h))]
      · intro p hp
        unfold scopedListReply
        apply strHasSub_append_left
        apply strHasSub_append_right
        unfold productListStr
        refine strHasSub_trans _ _ _ (joinNL_contains productLine ps p hp) ?_
        unfold productLine
        exact strHasSub_append_left _ _ _ (strHasSub_self_append _ _)
    · intro he
      subst he
      constructor
      · rw [hfb]
        unfold fetchScoped
        rw [hps]
        rfl
      · exact noScoped_ne_noProducts c.title
  · intro x
    have hc2 : ({ gw with productsLimit5 := x } : Gateway).customCollections =
        Except.ok (some cols) := hcols
    have hfb2 : fallbackRespond { gw with productsLimit5 := x } m =
        fetchScoped { gw with productsLimit5 := x } c 1 := by
      unfold fallbackRespond
      rw [hcls]
      dsimp only
      unfold productBranch
      rw [if_pos hbk, hc2]
      dsimp only [Option.getD]
      rw [hmatch]
    rw [hfb2, hfb]
    rfl

/-- Witness for C7: the engine with a kitchen collection of two products
    answers the kitchen message with a reply listing both titles bulleted,
    independently of the general listing. -/
theorem c7_collection_scoped_witness :
    (fallbackRespond gwKitchen "show me your kitchen products").1 =
      okReply (scopedListReply "Kitchen Essentials" [prodPanA, prodPanB]) ∧
    strHasSub (scopedListReply "Kitchen Essentials" [prodPanA, prodPanB])
      ("• " ++ "Copper Pan") = true ∧
    strHasSub (scopedListReply "Kitchen Essentials" [prodPanA, prodPanB])
      ("• " ++ "Steel Whisk") = true := by
  have h := (c7_collection_scoped "show me your kitchen products" gwKitchen
    [{ id := 9, title := "Kitchen Essentials" }] { id := 9, title := "Kitchen Essentials" }
    rfl rfl rfl).1 [prodPanA, prodPanB] rfl
  have h2 := h.1 (List.cons_ne_nil _ _)
  exact ⟨h2.1, h2.2 prodPanA (by simp), h2.2 prodPanB (by simp)⟩

/-! ## Claim C8 -/

/-- Claim C8 counterexample: a catalog failure on the fallback product path
    is not recovered into an apologetic reply; it escapes to the outer
    catch and the request ends as an error response with the upstream
    status and no reply field. -/
theorem c8_counterexample_fallback_error :
    (chatHandler envNone gwErr503 (Except.error ()) (some "show me your products")).1.status
      = 503 ∧
    (chatHandler envNone gwErr503 (Except.error ()) (some "show me your products")).1.body.getField
      "reply" = none := by
  exact ⟨rfl, rfl⟩

/-- Claim C8 (amended): a catalog failure while fetching LLM context is
    recovered locally, with the snapshot omitted and the request handled
    exactly as if the products field were absent; a catalog failure on the
    fallback product path is not recovered locally but propagates to the
    outer catch, which answers with the ShopifyAPIError response for the
    thrown error (general-listing and collections-lookup cases). -/
theorem c8_catalog_failure_semantics :
    (∀ (env : Env) (gw : Gateway) (t : Except Unit Json) (msg : String) (e : JsError),
      gw.productsLimit10 = Except.error e →
        (buildLLMContext gw msg).1.products = none ∧
        chatHandler env gw t (some msg) =
          chatHandler env { gw with productsLimit10 := Except.ok none } t (some msg)) ∧
    (∀ (gw : Gateway) (m : String) (e : JsError),
      classify m = Intent.genericProduct →
      (beautyCollectionQuery m || kitchenCollectionQuery m) = false →
      gw.productsLimit5 = Except.error e →
        (fallbackRespond gw m).1 = outerCatch e) ∧
    (∀ (gw : Gateway) (m : String) (e : JsError),
      classify m = Intent.genericProduct →
      (beautyCollectionQuery m || kitchenCollectionQuery m) = true →
      gw.customCollections = Except.error e →
        (fallbackRespond gw m).1 = outerCatch e) := by
  refine ⟨?_, ?_, ?_⟩
  · intro env gw t msg e herr
    have hbc : buildLLMContext gw msg =
        buildLLMContext { gw with productsLimit10 := Except.ok none } msg := by
      unfold buildLLMContext
      cases hpq : isProductQuery msg with
      | true => rw [herr]
      | false => rfl
    constructor
    · unfold buildLLMContext
      cases hpq : isProductQuery msg with
      | true =>
        rw [herr]
        rfl
      | false => rfl
    · unfold chatHandler
      dsimp only
      rw [hbc]
      rfl
  · intro gw m e hcls hbk herr
    unfold fallbackRespond
    rw [hcls]
    dsimp only
    unfold productBranch
    rw [if_neg (by rw [hbk]; exact Bool.false_ne_true)]
    unfold fetchGeneral
    rw [herr]
  · intro gw m e hcls hbk herr
    unfold fallbackRespond
    rw [hcls]
    dsimp only
    unfold productBranch
    rw [if_pos hbk, herr]

/-- Witness for C8: with a failing context fetch the snapshot is omitted
    and the handler result agrees with the missing-field gateway. -/
theorem c8_catalog_failure_semantics_witness :
    (buildLLMContext gwCtxErr "products please").1.products = none ∧
    chatHandler envLLM gwCtxErr transportOpenAIOk (some "products please") =
      chatHandler envLLM { gwCtxErr with productsLimit10 := Except.ok none }
        transportOpenAIOk (some "products please") :=
  c8_catalog_failure_semantics.1 envLLM gwCtxErr transportOpenAIOk "products please"
    (.plain "boom") rfl

/-! ## Claim C9 -/

/-- Claim C9 counterexample: the context snapshot price is the raw variant
    yes string, which is neither a formatted currency string (no pound
    prefix) nor an unavailability marker. -/
theorem c9_raw_price_counterexample :
    (ctxProduct prodRawPrice).price = "12.5" ∧
    strHasSub "12.5" "\xa3" = false ∧
    ("12.5" : String) ≠ "Price not available" ∧
    ("12.5" : String) ≠ "unavailable" := by
  exact ⟨rfl, rfl, by decide, by decide⟩

/-- Claim C9 (amended): the snapshot is attached exactly when the message
    matches product vocabulary and maps each product to a record whose
    title is the product title, whose price is the raw first-variant price
    string (or the marker when absent or empty), and whose description is
    the body with HTML tags stripped (or the placeholder), the stripped
    text never containing a complete tag. -/
theorem c9_snapshot_shape :
    (∀ (gw : Gateway) (msg : String) (ps : List Product),
      isProductQuery msg = true → gw.productsLimit10 = Except.ok (some ps) →
      (buildLLMContext gw msg).1.products = some (ps.map ctxProduct)) ∧
    (∀ (gw : Gateway) (msg : String),
      isProductQuery msg = false → (buildLLMContext gw msg).1.products = none) ∧
    (∀ p : Product,
      (ctxProduct p).title = p.title ∧
      (ctxProduct p).price = jsOrStr (p.variants.head?.bind Variant.price) "Price not available" ∧
      (ctxProduct p).description = jsOrStr (p.body_html.map stripHtml) "No description" ∧
      hasOpenClose (ctxProduct p).description.data = false) := by
  refine ⟨?_, ?_, ?_⟩
  · intro gw msg ps hpq hres
    unfold buildLLMContext
    rw [if_pos hpq, hres]
  · intro gw msg hpq
    unfold buildLLMContext
    rw [if_neg (by rw [hpq]; exact Bool.false_ne_true)]
    rfl
  · intro p
    refine ⟨rfl, rfl, rfl, ?_⟩
    show hasOpenClose (jsOrStr (p.body_html.map stripHtml) "No description").data = false
    cases hb : p.body_html with
    | none => decide
    | some h =>
      dsimp only [Option.map, jsOrStr]
      by_cases he : stripHtml h = ""
      · rw [if_pos he]
        decide
      · rw [if_neg he]
        exact stripHtmlGo_no_openclose h.data.length h.data

/-- Witness for C9: for the concrete raw-price product the snapshot maps it
    through ctxProduct and its description is the tag-stripped body. -/
theorem c9_snapshot_shape_witness :
    (buildLLMContext gwRawPrice "show products").1.products =
      some ([prodRawPrice].map ctxProduct) ∧
    (ctxProduct prodRawPrice).description = "Good" := by
  refine ⟨c9_snapshot_shape.1 gwRawPrice "show products" [prodRawPrice] rfl rfl, rfl⟩

/-! ## Claim C10 -/

/-- Claim C10: the gold eye mask flag is computed but consulted by no
    branch: a message matching the gold eye mask vocabulary and no other
    intent vocabulary classifies as the default intent and receives the
    default reply, not a product-specific one. -/
theorem c10_gold_eye_mask_ignored (m : String) (gw : Gateway)
    (_hg : isGoldEyeMaskQuery m = true)
    (h1 : isFaqQuery m = false) (h2 : isRefundQuery m = false)
    (h3 : isShippingQuery m = false) (h4 : isPrivacyQuery m = false)
    (h5 : isTermsQuery m = false) (h6 : isContactQuery m = false)
    (h7 : isSocialMediaQuery m = false) (h8 : isRewardsQuery m = false)
    (h9 : isSpecificProductQuery m = false) (h10 : isProductQuery m = false) :
    classify m = Intent.other ∧
    fallbackRespond gw m = (okReply defaultReply, 0) := by
  have hcls : classify m = Intent.other := by
    unfold classify
    simp [h1, h2, h3, h4, h5, h6, h7, h8, h9, h10]
  refine ⟨hcls, ?_⟩
  unfold fallbackRespond
  rw [hcls]

/-- Witness for C10 at the concrete message Puffiness, which matches only
    the gold eye mask vocabulary. -/
theorem c10_gold_eye_mask_ignored_witness :
    classify "Puffiness" = Intent.other ∧
    fallbackRespond gwEmpty "Puffiness" = (okReply defaultReply, 0) :=
  c10_gold_eye_mask_ignored "Puffiness" gwEmpty rfl rfl rfl rfl rfl rfl rfl rfl rfl rfl rfl
